import Mathlib

/-
Verification of the r3 websocket client hub and transaction dispatcher
(source: the Go package in src/unnamed/part_001).

The Go code is embedded shallowly: the stateful dispatcher
`clientType.handleTransaction` becomes a pure function from the parsed
input and an environment of external collaborators (bruteforce, auth
flows, request execution — all outside this package) to a result record
that captures the returned bytes and the side effects on the connection
(deregistration request, brute-force accounting, collaborator calls).
The hub control loop's three event sources (client add, client delete,
cluster events) become step functions on the list of live clients, and
the capacity-10 request limiter becomes a transition system on the
number of held slots.
-/

namespace Websocket

/-- a raw JSON value (Go json.RawMessage): the rendered bytes plus
whether they are valid JSON (marshalling an envelope that embeds an
invalid raw message fails in Go). -/
structure RawJson where
  bytes : String
  valid : Bool
deriving DecidableEq

/-- a Go value handed to json.Marshal as an interface: nil (marshals to
the JSON literal null), an ordinary marshallable value (rendering to the
given JSON text), or a value on which json.Marshal errors. -/
inductive Payload where
  | nil
  | value (json : String)
  | unmarshallable
deriving DecidableEq

/-- Go json.Marshal applied to a Payload: nil renders as null, ordinary
values render to their JSON text, unmarshallable values error. -/
def Payload.marshal : Payload → Option RawJson
  | .nil => some { bytes := "null", valid := true }
  | .value j => some { bytes := j, valid := true }
  | .unmarshallable => none

/-- Modelled from the spec: one individual request of the wire envelope
`types.Request` (package r3/types is not in src); spec section 6 gives
`(ressource: string, action: string, payload: raw)`. -/
structure Request where
  ressource : String
  action : String
  payload : RawJson
deriving DecidableEq

/-- Modelled from the spec: the request wire envelope
`types.RequestTransaction` (r3/types, not in src): a client-assigned
transaction number plus an ordered sequence of requests. -/
structure RequestTransaction where
  transactionNr : Int
  requests : List Request
deriving DecidableEq

/-- Modelled from the spec: one response entry `types.Response`
(r3/types, not in src): a raw payload or an error string. -/
structure Response where
  payload : RawJson
  error : String
deriving DecidableEq

/-- Modelled from the spec: the response wire envelope
`types.ResponseTransaction` (r3/types, not in src): the echoed
transaction number, an optional transaction-level error string, and the
per-request response entries. -/
structure ResponseTransaction where
  transactionNr : Int
  error : String
  responses : List Response
deriving DecidableEq

/-- whether Go json.Marshal succeeds on a response envelope: the number
and the strings always marshal; a raw-message payload fails exactly when
its bytes are not valid JSON. -/
def ResponseTransaction.marshalOk (t : ResponseTransaction) : Bool :=
  t.responses.all (fun r => r.payload.valid)

/-- Modelled from the spec: one entry of the unrequested (server-push)
envelope `types.UnreqResponse` (r3/types, not in src). -/
structure UnreqResponse where
  payload : RawJson
  ressource : String
  result : String
deriving DecidableEq

/-- Modelled from the spec: the unrequested (server-push) wire envelope
`types.UnreqResponseTransaction` (r3/types, not in src). -/
structure UnreqResponseTransaction where
  transactionNr : Int
  responses : List UnreqResponse
deriving DecidableEq

/-- the websocket client (Go struct clientType). The id field models
the pointer identity of a `*clientType` value: the hub keys its client
map by pointer, so two connections with equal fields are still distinct.
The transport handle, context and write mutex are effects, not data, and
are represented by the hub/dispatcher step functions instead. -/
structure clientType where
  id : Nat
  address : String
  admin : Bool
  fixedToken : Bool
  loginId : Int
  noAuth : Bool
deriving DecidableEq

/-- result record of the auth flows request.LoginAuthToken and
request.LoginAuthUser (r3/request, external collaborators): a response
payload or an error, plus the values written through the loginId, admin
and noAuth pointers. -/
structure AuthTokenRes where
  payload : Payload
  err : Option String
  loginId : Int
  admin : Bool
  noAuth : Bool

/-- result record of request.LoginAuthTokenFixed (external
collaborator): a response payload or an error, plus the values written
through the loginId and fixedToken pointers. -/
structure AuthTokenFixedRes where
  payload : Payload
  err : Option String
  loginId : Int
  fixedToken : Bool

/-- the external collaborators of the websocket package, kept opaque:
bruteforce.CheckByHost, handler.CheckForLicenseErrCode, the three
delegated auth flows, and the response entries produced by
request.ExecTransaction. -/
structure Env where
  checkByHost : String → Bool
  checkForLicenseErrCode : String → Bool
  loginAuthToken : RawJson → clientType → AuthTokenRes
  loginAuthTokenFixed : RawJson → clientType → AuthTokenFixedRes
  loginAuthUser : RawJson → clientType → AuthTokenRes
  execResponses : Int → Bool → Bool → RequestTransaction → List Response

/-- Modelled from the spec: `request.ExecTransaction` (r3/request, not
in src). Per spec sections 3 and 4.4.3 it populates the per-request
response entries of the envelope it is handed (per-request errors are
embedded in individual entries, not raised at transaction level), and
the envelope keeps its transaction number. -/
def ExecTransaction (env : Env) (loginId : Int) (admin noAuth : Bool)
    (reqTrans : RequestTransaction) (resTrans : ResponseTransaction) : ResponseTransaction :=
  { resTrans with responses := env.execResponses loginId admin noAuth reqTrans }

/-- handler.ErrGeneral (r3/handler, external collaborator); its concrete
text is not fixed by the sources in src and no claim depends on it. -/
def ErrGeneral : String := "general error"

/-- the bytes returned by the dispatcher: either the degraded
empty-object literal, or a marshalled response envelope (marshalling is
deterministic, so envelope values stand for their rendered bytes). -/
inductive Output where
  | emptyObject
  | envelope (resTrans : ResponseTransaction)
deriving DecidableEq

/-- everything one call of clientType.handleTransaction does: the bytes
it returns to the read goroutine, the connection's field values
afterwards, whether it sent the client to hub.clientDel, the host it
reported to bruteforce.BadAttemptByHost (if any), and whether it invoked
request.ExecTransaction. -/
structure DispatchResult where
  output : Output
  client : clientType
  deregister : Bool
  badAttemptHost : Option String
  execCalled : Bool
deriving DecidableEq

/-- the auth-transaction test of line 263: exactly one request whose
ressource is "auth"; returns that request. -/
def authRequestOf (t : RequestTransaction) : Option Request :=
  match t.requests with
  | [r] => if r.ressource = "auth" then some r else none
  | _ => none

/-- the result of one delegated auth flow: error, payload, and the
client fields after the flow wrote through its pointers. -/
structure AuthCall where
  err : Option String
  payload : Payload
  client : clientType

/-- the switch on req.Action (lines 290-302): each case calls its auth
flow, which may write the client fields it received pointers to; an
unmatched action leaves the error and payload nil and touches nothing. -/
def authCallOf (env : Env) (req : Request) (c : clientType) : AuthCall :=
  if req.action = "token" then
    let r := env.loginAuthToken req.payload c
    { err := r.err, payload := r.payload,
      client := { c with loginId := r.loginId, admin := r.admin, noAuth := r.noAuth } }
  else if req.action = "tokenFixed" then
    let r := env.loginAuthTokenFixed req.payload c
    { err := r.err, payload := r.payload,
      client := { c with loginId := r.loginId, fixedToken := r.fixedToken } }
  else if req.action = "user" then
    let r := env.loginAuthUser req.payload c
    { err := r.err, payload := r.payload,
      client := { c with loginId := r.loginId, admin := r.admin, noAuth := r.noAuth } }
  else
    { err := none, payload := .nil, client := c }

/-- the final marshal of lines 331-338: the envelope if json.Marshal
succeeds on it, the empty-object literal otherwise. -/
def finishTransaction (c : clientType) (resTrans : ResponseTransaction)
    (dereg : Bool) (bad : Option String) (exec : Bool) : DispatchResult :=
  { output := if resTrans.marshalOk then Output.envelope resTrans else Output.emptyObject,
    client := c, deregister := dereg, badAttemptHost := bad, execCalled := exec }

/-- clientType.handleTransaction (lines 239-338). The raw input bytes
enter only through json.Unmarshal, so the function takes the parse
result: none for bytes that fail to unmarshal. -/
def handleTransaction (env : Env) (c : clientType)
    (parsed : Option RequestTransaction) : DispatchResult :=
  match parsed with
  | none =>
    { output := Output.emptyObject, client := c, deregister := false,
      badAttemptHost := none, execCalled := false }
  | some reqTrans =>
    let resTrans : ResponseTransaction :=
      { transactionNr := reqTrans.transactionNr, error := "", responses := [] }
    match authRequestOf reqTrans with
    | none =>
      if c.fixedToken then
        { output := Output.emptyObject, client := c, deregister := false,
          badAttemptHost := none, execCalled := false }
      else
        finishTransaction c
          (ExecTransaction env c.loginId c.admin c.noAuth reqTrans resTrans)
          false none true
    | some req =>
      if env.checkByHost c.address then
        { output := Output.emptyObject, client := c, deregister := true,
          badAttemptHost := none, execCalled := false }
      else
        let ac := authCallOf env req c
        match ac.err with
        | some e =>
          finishTransaction ac.client
            { resTrans with
              error := if env.checkForLicenseErrCode e then e else "AUTH_ERROR" }
            false (some c.address) false
        | none =>
          match Payload.marshal ac.payload with
          | none =>
            finishTransaction ac.client { resTrans with error := ErrGeneral }
              false none false
          | some pj =>
            finishTransaction ac.client
              { resTrans with responses := [{ payload := pj, error := "" }] }
              false none false

/-- Modelled from the spec: the notification a cluster event carries.
The Go struct types.ClusterEvent (r3/types, not in src) is flattened
into fields; spec sections 4.1 and 6 state one event carries one of
these notifications (kick and kick-non-admin included). Data joined to
a notification is kept as the Payload handed to json.Marshal; the
flag-only notifications pass nil, exactly as the hub loop does. -/
inductive EventKind where
  | collectionChanged (data : Payload)
  | configChanged
  | filesCopied (data : Payload)
  | fileRequested (data : Payload)
  | renew
  | schemaLoading
  | schemaLoaded (data : Payload)
  | kick
  | kickNonAdmin
deriving DecidableEq

/-- Modelled from the spec: a cluster event as consumed by the hub
loop: an optional target login id (0 = all logins) and its
notification. -/
structure ClusterEvent where
  loginId : Int
  kind : EventKind
deriving DecidableEq

/-- the ressource string the hub loop passes to prepareUnrequested for
each notification (lines 146-183); the kick kinds render nothing. -/
def ressourceOf : EventKind → String
  | .collectionChanged _ => "collection_changed"
  | .configChanged => "config_changed"
  | .filesCopied _ => "files_copied"
  | .fileRequested _ => "fileRequested"
  | .renew => "reauthorized"
  | .schemaLoading => "schema_loading"
  | .schemaLoaded _ => "schema_loaded"
  | .kick => ""
  | .kickNonAdmin => ""

/-- the payload the hub loop passes to prepareUnrequested for each
notification (lines 146-183): the notification's data where it has any,
nil otherwise. -/
def payloadOf : EventKind → Payload
  | .collectionChanged d => d
  | .configChanged => Payload.nil
  | .filesCopied d => d
  | .fileRequested d => d
  | .renew => Payload.nil
  | .schemaLoading => Payload.nil
  | .schemaLoaded d => d
  | .kick => Payload.nil
  | .kickNonAdmin => Payload.nil

/-- prepareUnrequested (lines 340-360): marshal the payload (failing if
json.Marshal fails on it), build the push envelope with the sentinel
transaction number 0 and a single OK entry, and marshal that envelope
(which always succeeds: its payload entry is valid by construction, the
rest are strings and a number). -/
def prepareUnrequested (ressource : String) (payload : Payload) :
    Option UnreqResponseTransaction :=
  match Payload.marshal payload with
  | none => none
  | some payloadJson =>
    some { transactionNr := 0,
           responses := [{ payload := payloadJson, ressource := ressource, result := "OK" }] }

/-- the single rendering of the push message done by the hub loop
before it fans an event out (lines 142-188). -/
def renderEvent (k : EventKind) : Option UnreqResponseTransaction :=
  prepareUnrequested (ressourceOf k) (payloadOf k)

/-- the login filter of lines 192-195: login id 0 affects all clients,
otherwise only the matching login. -/
def loginMatches (ev : ClusterEvent) (c : clientType) : Bool :=
  ev.loginId == 0 || ev.loginId == c.loginId

/-- kickEvent of line 140: either kick flag set. -/
def isKickEvent : EventKind → Bool
  | .kick => true
  | .kickNonAdmin => true
  | _ => false

/-- the kick condition of line 203: a hard kick hits every client, the
non-admin kick only clients whose admin flag is false. -/
def kicksClient (ev : ClusterEvent) (c : clientType) : Bool :=
  match ev.kind with
  | .kick => true
  | .kickNonAdmin => !c.admin
  | _ => false

/-- one pass of the hub loop over a cluster event (lines 137-209):
returns the live set afterwards and the list of (client, push message)
writes issued. A kick event removes every client matching the login
filter and the kick condition and sends nothing (kickEvent suppresses
the send); a non-kick event removes nobody, and either rendering fails
and the event is skipped, or the one rendered message is written to
every client matching the login filter. -/
def hubProcessEvent (clients : List clientType) (ev : ClusterEvent) :
    List clientType × List (clientType × UnreqResponseTransaction) :=
  if isKickEvent ev.kind then
    (clients.filter (fun c => !(loginMatches ev c && kicksClient ev c)), [])
  else
    match renderEvent ev.kind with
    | none => (clients, [])
    | some msg =>
      (clients, (clients.filter (fun c => loginMatches ev c)).map (fun c => (c, msg)))

/-- a registration or deregistration request arriving on the hub's
clientAdd or clientDel channel. -/
inductive HubOp where
  | add (c : clientType)
  | del (c : clientType)
deriving DecidableEq

/-- one pass of the hub loop over an add or delete request (lines
130-135 together with removeClient, lines 116-125): returns the live
set afterwards and the count published to the cluster gauge, if any.
An add inserts into the client map and always publishes the new size; a
delete checks membership first, and for an absent client changes
nothing and publishes nothing. -/
def hubStep (st : List clientType) : HubOp → List clientType × Option Nat
  | .add c =>
    if c ∈ st then (st, some st.length) else (c :: st, some (st.length + 1))
  | .del c =>
    if c ∈ st then (st.erase c, some (st.erase c).length) else (st, none)

/-- the hub loop run over a sequence of add and delete requests. -/
def hubRun : List clientType → List HubOp → List clientType
  | st, [] => st
  | st, op :: rest => hubRun (hubStep st op).1 rest

/-- number of registrations in an op sequence. -/
def numAdds : List HubOp → Nat
  | [] => 0
  | HubOp.add _ :: rest => numAdds rest + 1
  | HubOp.del _ :: rest => numAdds rest

/-- number of deregistrations in an op sequence. -/
def numDels : List HubOp → Nat
  | [] => 0
  | HubOp.add _ :: rest => numDels rest
  | HubOp.del _ :: rest => numDels rest + 1

/-- well-formed op sequences: every registration is of a connection not
currently live (the handler registers a freshly allocated client, line
97-109) and every deregistration is of a currently live one (duplicate
deletes are no-ops absorbed by the membership check and counted by
neither side of the claim). -/
def wfOps (st : List clientType) : List HubOp → Bool
  | [] => true
  | HubOp.add c :: rest => if c ∈ st then false else wfOps (c :: st) rest
  | HubOp.del c :: rest => if c ∈ st then wfOps (st.erase c) rest else false

/-- capacity of the hubRequestLimit channel (line 62). -/
def hubRequestLimitCap : Nat := 10

/-- the semaphore behaviour of the buffered channel hubRequestLimit:
the state is the number of slots held; a send (acquire, line 240) can
only proceed while the buffer is not full, a receive (release, the
deferred read at lines 241-243) gives a slot back. -/
inductive limiterStep : Nat → Nat → Prop where
  | acquire (n : Nat) : n < hubRequestLimitCap → limiterStep n (n + 1)
  | release (n : Nat) : limiterStep (n + 1) n

/-- the slot counts reachable from the idle channel. -/
inductive limiterReachable : Nat → Prop where
  | init : limiterReachable 0
  | step (m n : Nat) : limiterReachable m → limiterStep m n → limiterReachable n

/-- a concrete environment for evaluating the model: no host blocked,
no license errors, auth flows that succeed, a request executor that
returns no entries. -/
def envDefault : Env :=
  { checkByHost := fun _ => false
    checkForLicenseErrCode := fun _ => false
    loginAuthToken := fun _ _ =>
      { payload := Payload.nil, err := none, loginId := 1, admin := false, noAuth := false }
    loginAuthTokenFixed := fun _ _ =>
      { payload := Payload.nil, err := none, loginId := 1, fixedToken := true }
    loginAuthUser := fun _ _ =>
      { payload := Payload.nil, err := none, loginId := 1, admin := false, noAuth := false }
    execResponses := fun _ _ _ _ => [] }

/-- a concrete environment whose brute-force collaborator blocks every
host. -/
def envBlocked : Env :=
  { envDefault with checkByHost := fun _ => true }

/-- a concrete environment whose token auth flow fails with a
non-license error. -/
def envAuthErr : Env :=
  { envDefault with
    loginAuthToken := fun _ _ =>
      { payload := Payload.nil, err := some "boom", loginId := 0, admin := false, noAuth := false } }

/-- a concrete unauthenticated connection. -/
def wClient : clientType :=
  { id := 0, address := "10.0.0.1", admin := false, fixedToken := false,
    loginId := 0, noAuth := false }

/-- a concrete fixed-token connection. -/
def wClientFixed : clientType :=
  { wClient with id := 1, fixedToken := true }

/-- a concrete auth request naming the token action. -/
def wReq : Request :=
  { ressource := "auth", action := "token", payload := { bytes := "1", valid := true } }

/-- a concrete auth request with an action none of the three flows
handles. -/
def wReqOdd : Request :=
  { ressource := "auth", action := "logout", payload := { bytes := "1", valid := true } }

/-- a concrete auth transaction. -/
def wAuthT : RequestTransaction :=
  { transactionNr := 7, requests := [wReq] }

/-- a concrete auth transaction with an unhandled action. -/
def wAuthTOdd : RequestTransaction :=
  { transactionNr := 9, requests := [wReqOdd] }

/-- a concrete non-auth transaction. -/
def wNonAuthT : RequestTransaction :=
  { transactionNr := 5,
    requests := [{ ressource := "data", action := "get", payload := { bytes := "1", valid := true } }] }

/-- live client one: an admin logged in as login 1. -/
def wcA : clientType :=
  { id := 10, address := "10.0.0.2", admin := true, fixedToken := false,
    loginId := 1, noAuth := false }

/-- live client two: a non-admin logged in as login 1. -/
def wcB : clientType :=
  { id := 11, address := "10.0.0.3", admin := false, fixedToken := false,
    loginId := 1, noAuth := false }

/-- live client three: a non-admin logged in as login 2. -/
def wcC : clientType :=
  { id := 12, address := "10.0.0.4", admin := false, fixedToken := false,
    loginId := 2, noAuth := false }

/-- a concrete live set. -/
def wClients : List clientType := [wcA, wcB, wcC]

/-- a concrete non-admin kick aimed at login 1. -/
def wEvKickNA : ClusterEvent := { loginId := 1, kind := EventKind.kickNonAdmin }

/-- a concrete hard kick aimed at every login. -/
def wEvKick : ClusterEvent := { loginId := 0, kind := EventKind.kick }

/-- a concrete broadcast event: config changed, all logins. -/
def wEvCfg : ClusterEvent := { loginId := 0, kind := EventKind.configChanged }

/-- the push message the config-changed event renders. -/
def wMsgCfg : UnreqResponseTransaction :=
  { transactionNr := 0,
    responses := [{ payload := { bytes := "null", valid := true },
                    ressource := "config_changed", result := "OK" }] }

/-- a concrete op sequence: register two connections, deregister the
first. -/
def wOps : List HubOp := [HubOp.add wcA, HubOp.add wcB, HubOp.del wcA]

/-- the response envelope the default environment produces for the
concrete non-auth transaction. -/
def wResExec : ResponseTransaction :=
  { transactionNr := 5, error := "", responses := [] }

/-- C1: for every auth transaction (a valid envelope with exactly one
request whose ressource is "auth") on a connection whose remote address
the brute-force collaborator reports as blocked, the dispatcher sends
the connection to hub.clientDel (deregisters it) and stops before any
auth flow runs: its output is the degraded empty-object literal, never
a response envelope, no bad attempt is recorded and no collaborator is
invoked. -/
theorem auth_blocked_hard_disconnect (env : Env) (c : clientType)
    (t : RequestTransaction) (req : Request)
    (hauth : authRequestOf t = some req)
    (hblocked : env.checkByHost c.address = true) :
    (handleTransaction env c (some t)).deregister = true
    ∧ (handleTransaction env c (some t)).output = Output.emptyObject
    ∧ (handleTransaction env c (some t)).badAttemptHost = none
    ∧ (handleTransaction env c (some t)).execCalled = false := by
  simp [handleTransaction, hauth, hblocked]

/-- witness for C1: a concrete blocked auth transaction. -/
theorem auth_blocked_hard_disconnect_witness :
    (handleTransaction envBlocked wClient (some wAuthT)).deregister = true
    ∧ (handleTransaction envBlocked wClient (some wAuthT)).output = Output.emptyObject :=
  ⟨(auth_blocked_hard_disconnect envBlocked wClient wAuthT wReq (by decide) rfl).1,
   (auth_blocked_hard_disconnect envBlocked wClient wAuthT wReq (by decide) rfl).2.1⟩

/-- C3: for every input byte sequence that fails to unmarshal as a
request envelope (parse result none), the dispatcher returns the
literal empty-object response, echoes no transaction number, requests
no deregistration (the connection stays open), records nothing and
calls no collaborator; the function is total, so it cannot crash. -/
theorem malformed_input_empty_response (env : Env) (c : clientType) :
    handleTransaction env c none
      = { output := Output.emptyObject, client := c, deregister := false,
          badAttemptHost := none, execCalled := false } := rfl

/-- C4: for every valid non-auth transaction on a connection whose
fixedToken flag is set, the response is the empty-object literal, the
connection's loginId and admin fields are unchanged,
request.ExecTransaction is not invoked, and the connection is not torn
down. -/
theorem fixedToken_nonauth_dropped (env : Env) (c : clientType)
    (t : RequestTransaction)
    (hna : authRequestOf t = none) (hft : c.fixedToken = true) :
    (handleTransaction env c (some t)).output = Output.emptyObject
    ∧ (handleTransaction env c (some t)).client.loginId = c.loginId
    ∧ (handleTransaction env c (some t)).client.admin = c.admin
    ∧ (handleTransaction env c (some t)).execCalled = false
    ∧ (handleTransaction env c (some t)).deregister = false := by
  simp [handleTransaction, hna, hft]

/-- witness for C4: a concrete non-auth transaction on a fixed-token
connection. -/
theorem fixedToken_nonauth_dropped_witness :
    (handleTransaction envDefault wClientFixed (some wNonAuthT)).output = Output.emptyObject
    ∧ (handleTransaction envDefault wClientFixed (some wNonAuthT)).execCalled = false :=
  ⟨(fixedToken_nonauth_dropped envDefault wClientFixed wNonAuthT (by decide) rfl).1,
   (fixedToken_nonauth_dropped envDefault wClientFixed wNonAuthT (by decide) rfl).2.2.2.1⟩

/-- C7: for every auth transaction whose delegated auth flow returns an
error, the dispatcher records a bad attempt against the connection's
remote address, and the transaction-level error field of the response
envelope equals the real error text when the collaborator classifies it
as a license error and the sentinel AUTH_ERROR otherwise; the response
entries stay empty, so the envelope always marshals and internal detail
is never surfaced for non-license failures. -/
theorem auth_failure_classified_error (env : Env) (c : clientType)
    (t : RequestTransaction) (req : Request) (e : String)
    (hauth : authRequestOf t = some req)
    (hnb : env.checkByHost c.address = false)
    (herr : (authCallOf env req c).err = some e) :
    (handleTransaction env c (some t)).badAttemptHost = some c.address
    ∧ (handleTransaction env c (some t)).output
      = Output.envelope
          { transactionNr := t.transactionNr,
            error := if env.checkForLicenseErrCode e then e else "AUTH_ERROR",
            responses := [] } := by
  simp [handleTransaction, hauth, hnb, herr, finishTransaction,
    ResponseTransaction.marshalOk]

/-- witness for C7: a concrete failing token auth whose non-license
error collapses to the sentinel. -/
theorem auth_failure_classified_error_witness :
    (handleTransaction envAuthErr wClient (some wAuthT)).badAttemptHost
      = some wClient.address
    ∧ (handleTransaction envAuthErr wClient (some wAuthT)).output
      = Output.envelope
          { transactionNr := wAuthT.transactionNr,
            error := if envAuthErr.checkForLicenseErrCode "boom" then "boom" else "AUTH_ERROR",
            responses := [] } :=
  auth_failure_classified_error envAuthErr wClient wAuthT wReq "boom"
    (by decide) rfl (by decide)

/-- C10: for every auth transaction on a non-blocked host whose action
matches none of token, tokenFixed and user, the switch falls through
with nil error and nil payload, so the dispatcher treats it as a
success: no bad attempt is recorded, the transaction-level error stays
empty, the connection's fields are untouched, nothing is deregistered
or executed, and the response envelope carries exactly one entry whose
payload is the JSON literal null. -/
theorem auth_unknown_action_success (env : Env) (c : clientType)
    (t : RequestTransaction) (req : Request)
    (hauth : authRequestOf t = some req)
    (hnb : env.checkByHost c.address = false)
    (ha1 : ¬ req.action = "token") (ha2 : ¬ req.action = "tokenFixed")
    (ha3 : ¬ req.action = "user") :
    handleTransaction env c (some t)
      = { output := Output.envelope
            { transactionNr := t.transactionNr, error := "",
              responses := [{ payload := { bytes := "null", valid := true }, error := "" }] },
          client := c, deregister := false, badAttemptHost := none,
          execCalled := false } := by
  simp [handleTransaction, hauth, hnb, authCallOf, ha1, ha2, ha3,
    Payload.marshal, finishTransaction, ResponseTransaction.marshalOk]

/-- witness for C10: a concrete auth transaction carrying the unhandled
action logout. -/
theorem auth_unknown_action_success_witness :
    handleTransaction envDefault wClient (some wAuthTOdd)
      = { output := Output.envelope
            { transactionNr := wAuthTOdd.transactionNr, error := "",
              responses := [{ payload := { bytes := "null", valid := true }, error := "" }] },
          client := wClient, deregister := false, badAttemptHost := none,
          execCalled := false } :=
  auth_unknown_action_success envDefault wClient wAuthTOdd wReqOdd
    (by decide) rfl (by decide) (by decide) (by decide)

/-- C2: for every request envelope that parses successfully, whenever
the dispatcher's output is a marshalled response envelope, that
envelope carries the request's transaction number unmodified — on
every path: request execution, auth success, auth failure, and the
fallthrough action. The remaining paths return the degraded
empty-object literal, which is not a response envelope. -/
theorem transactionNr_roundtrip (env : Env) (c : clientType)
    (t : RequestTransaction) (res : ResponseTransaction)
    (h : (handleTransaction env c (some t)).output = Output.envelope res) :
    res.transactionNr = t.transactionNr := by
  simp only [handleTransaction, finishTransaction, ExecTransaction,
    ResponseTransaction.marshalOk] at h
  repeat' split at h
  all_goals simp_all
  all_goals rw [← h]

/-- witness for C2: the concrete non-auth transaction produces an
envelope echoing transaction number 5. -/
theorem transactionNr_roundtrip_witness :
    wResExec.transactionNr = wNonAuthT.transactionNr :=
  transactionNr_roundtrip envDefault wClient wNonAuthT wResExec (by decide)

/-- C5: a kick event with target login L removes from the live set
exactly the connections whose loginId equals L (all connections when L
is 0), and the kick-non-admin variant exactly those that additionally
have the admin flag false; no other connection is removed (membership
is otherwise preserved, as the iff states both directions). -/
theorem kick_removes_exactly_matching (clients : List clientType)
    (ev : ClusterEvent) (c : clientType) (hc : c ∈ clients) :
    (ev.kind = EventKind.kick →
      (c ∉ (hubProcessEvent clients ev).1
        ↔ (ev.loginId = 0 ∨ ev.loginId = c.loginId)))
    ∧ (ev.kind = EventKind.kickNonAdmin →
      (c ∉ (hubProcessEvent clients ev).1
        ↔ ((ev.loginId = 0 ∨ ev.loginId = c.loginId) ∧ c.admin = false))) := by
  constructor
  · intro hk
    simp [hubProcessEvent, isKickEvent, hk, List.mem_filter, hc,
      loginMatches, kicksClient]
    tauto
  · intro hk
    simp [hubProcessEvent, isKickEvent, hk, List.mem_filter, hc,
      loginMatches, kicksClient]
    intro _
    tauto

/-- witness for C5: the non-admin kick aimed at login 1 removes the
non-admin connection of login 1 but keeps the admin one. -/
theorem kick_removes_exactly_matching_witness :
    (wcB ∉ (hubProcessEvent wClients wEvKickNA).1
      ↔ ((wEvKickNA.loginId = 0 ∨ wEvKickNA.loginId = wcB.loginId)
          ∧ wcB.admin = false))
    ∧ (wcA ∉ (hubProcessEvent wClients wEvKickNA).1
      ↔ ((wEvKickNA.loginId = 0 ∨ wEvKickNA.loginId = wcA.loginId)
          ∧ wcA.admin = false)) :=
  ⟨(kick_removes_exactly_matching wClients wEvKickNA wcB (by decide)).2 rfl,
   (kick_removes_exactly_matching wClients wEvKickNA wcA (by decide)).2 rfl⟩

/-- C6: for every non-kick cluster event the live set is untouched and
the push message is rendered once, before the fan-out: if rendering
fails, no connection receives any message (no partial send); if it
succeeds with message m, the writes are exactly one copy of m to each
connection matching the login filter, so all recipients get
byte-identical payloads and every matching connection is served. -/
theorem broadcast_single_render_no_partial_send (clients : List clientType)
    (ev : ClusterEvent) (hk : isKickEvent ev.kind = false) :
    ((hubProcessEvent clients ev).1 = clients)
    ∧ (renderEvent ev.kind = none → (hubProcessEvent clients ev).2 = [])
    ∧ (∀ m, renderEvent ev.kind = some m →
        (hubProcessEvent clients ev).2
          = (clients.filter (fun c => loginMatches ev c)).map (fun c => (c, m))
        ∧ (∀ p ∈ (hubProcessEvent clients ev).2, p.2 = m)
        ∧ (∀ c2 ∈ clients, loginMatches ev c2 = true
            → (c2, m) ∈ (hubProcessEvent clients ev).2)) := by
  cases hrr : renderEvent ev.kind with
  | none =>
    refine ⟨?_, ?_, ?_⟩
    · simp [hubProcessEvent, hk, hrr]
    · intro _; simp [hubProcessEvent, hk, hrr]
    · intro m hm; exact absurd hm (by simp)
  | some m0 =>
    refine ⟨?_, ?_, ?_⟩
    · simp [hubProcessEvent, hk, hrr]
    · intro hnone; exact absurd hnone (by simp)
    · intro m hm
      obtain rfl : m0 = m := by injection hm
      refine ⟨by simp [hubProcessEvent, hk, hrr], ?_, ?_⟩
      · intro p hp
        simp [hubProcessEvent, hk, hrr, List.mem_map] at hp
        obtain ⟨c2, _, hpc⟩ := hp
        rw [← hpc]
      · intro c2 hc2 hlm
        simp [hubProcessEvent, hk, hrr, List.mem_map, List.mem_filter]
        exact ⟨hc2, hlm⟩

/-- witness for C6: the config-changed broadcast delivers the one
rendered message to every live connection. -/
theorem broadcast_single_render_no_partial_send_witness :
    (hubProcessEvent wClients wEvCfg).2
      = (wClients.filter (fun c => loginMatches wEvCfg c)).map (fun c => (c, wMsgCfg)) :=
  ((broadcast_single_render_no_partial_send wClients wEvCfg rfl).2.2 wMsgCfg rfl).1

/-- counting invariant of the hub loop: over any well-formed sequence
of registrations and deregistrations the live-set size changes by
exactly plus one per add and minus one per delete. -/
theorem hubRun_length_eq (ops : List HubOp) : ∀ st : List clientType,
    st.Nodup → wfOps st ops = true →
    (hubRun st ops).length + numDels ops = st.length + numAdds ops := by
  induction ops with
  | nil => intro st _ _; simp [hubRun, numAdds, numDels]
  | cons op rest ih =>
    intro st hnd hwf
    cases op with
    | add c =>
      rw [wfOps] at hwf
      by_cases hmem : c ∈ st
      · rw [if_pos hmem] at hwf; exact absurd hwf (by simp)
      · rw [if_neg hmem] at hwf
        have hst : hubRun st (HubOp.add c :: rest) = hubRun (c :: st) rest := by
          simp [hubRun, hubStep, hmem]
        have hih := ih (c :: st) (List.nodup_cons.mpr ⟨hmem, hnd⟩) hwf
        rw [hst, numAdds, numDels]
        simp only [List.length_cons] at hih
        omega
    | del c =>
      rw [wfOps] at hwf
      by_cases hmem : c ∈ st
      · rw [if_pos hmem] at hwf
        have hst : hubRun st (HubOp.del c :: rest) = hubRun (st.erase c) rest := by
          simp [hubRun, hubStep, hmem]
        have hih := ih (st.erase c) (hnd.erase c) hwf
        have hlen : (st.erase c).length = st.length - 1 :=
          List.length_erase_of_mem hmem
        have hpos : 0 < st.length := List.length_pos_of_mem hmem
        rw [hst, numAdds, numDels]
        omega
      · rw [if_neg hmem] at hwf; exact absurd hwf (by simp)

/-- C8: the published connection count tracks the live set exactly.
First, deregistration is idempotent: deleting an absent connection
changes nothing and publishes nothing. Second, every count the hub
publishes equals the size of the live set at that moment. Third, after
any well-formed sequence of N registrations and M deregistrations
starting from the empty hub, the live-set size (and hence the count
last published) is N minus M — stated additively as size + M = N, which
also shows M never exceeds N, so the difference is never negative. -/
theorem hub_count_invariant :
    (∀ (st : List clientType) (c : clientType), c ∉ st
      → hubStep st (HubOp.del c) = (st, none))
    ∧ (∀ (st : List clientType) (op : HubOp) (k : Nat),
        (hubStep st op).2 = some k → k = (hubStep st op).1.length)
    ∧ (∀ ops : List HubOp, wfOps [] ops = true →
        (hubRun [] ops).length + numDels ops = numAdds ops) := by
  refine ⟨?_, ?_, ?_⟩
  · intro st c hn; simp [hubStep, hn]
  · intro st op k h
    cases op with
    | add c =>
      by_cases hmem : c ∈ st
      · simp [hubStep, hmem] at h ⊢; omega
      · simp [hubStep, hmem] at h ⊢; omega
    | del c =>
      by_cases hmem : c ∈ st
      · simp [hubStep, hmem] at h ⊢; omega
      · simp [hubStep, hmem] at h
  · intro ops hwf
    have h := hubRun_length_eq ops [] List.nodup_nil hwf
    simpa using h

/-- witness for C8: two registrations followed by one deregistration
leave one live connection. -/
theorem hub_count_invariant_witness :
    wfOps [] wOps = true
    ∧ (hubRun [] wOps).length + numDels wOps = numAdds wOps :=
  ⟨by decide, hub_count_invariant.2.2 wOps (by decide)⟩

/-- C9: the global limiter has fixed capacity 10: every slot count
reachable from the idle channel by acquires and releases stays at or
below hubRequestLimitCap, and from a full channel no acquire step
exists — a send on the full buffered channel blocks until a slot is
freed. Release on every exit path, including panics, is the deferred
receive at lines 241-243, which Go runs on all returns and panics; the
model pairs it with the release transition. -/
theorem limiter_capacity_bound :
    (∀ n, limiterReachable n → n ≤ hubRequestLimitCap)
    ∧ (∀ n, hubRequestLimitCap ≤ n → ¬ limiterStep n (n + 1)) := by
  constructor
  · intro n h
    induction h with
    | init => exact Nat.zero_le _
    | step m k hr hs ih =>
      cases hs with
      | acquire _ hlt => omega
      | release _ => omega
  · intro n hge hs
    cases hs with
    | acquire _ hlt => omega

/-- witness for C9: one held slot is reachable and within capacity. -/
theorem limiter_capacity_bound_witness :
    limiterReachable 1 ∧ 1 ≤ hubRequestLimitCap :=
  ⟨limiterReachable.step 0 1 limiterReachable.init (limiterStep.acquire 0 (by decide)),
   limiter_capacity_bound.1 1
     (limiterReachable.step 0 1 limiterReachable.init (limiterStep.acquire 0 (by decide)))⟩

end Websocket
